import Mathlib

/-!
Verification of the agent execution core of the data-scientist-ai-agent
repository: the code-execution sandbox (PythonREPLTool._run, src/src/agent.py),
the agent controller (DataScientistAgent, src/src/agent.py), the global
agent accessor (get_agent, src/src/agent.py) and the API query path
(process_agent_query, src/api.py).

The sandbox executes model-generated Python code.  The semantics of the
executed snippet itself is treated as an oracle (ExecResult): either the
pair of final local variables and captured standard output, or a raised
exception with its message.  Everything the wrapper code does around that
oracle (dataset guard, markdown stripping, scope merging, visualization
capture, output assembly, exception conversion, stdout restoration) is
translated directly from the source.

Python string operations used by the source (strip, startswith, endswith,
slicing, substring containment) are modelled by structural recursion over
the character list of a string, so that all definitions evaluate inside
the kernel.
-/

/-! ## Python string primitives -/

/-- Character-list prefix test (structural, kernel-reducible). -/
def isPrefixOfL : List Char → List Char → Bool
  | [], _ => true
  | _ :: _, [] => false
  | a :: as, b :: bs => a == b && isPrefixOfL as bs

/-- Substring occurrence test on character lists: Python's `sub in s`. -/
def containsSubL (pat : List Char) : List Char → Bool
  | [] => isPrefixOfL pat []
  | c :: rest => isPrefixOfL pat (c :: rest) || containsSubL pat rest

/-- Python `s.startswith(p)`. -/
def pyStartsWith (s p : String) : Bool := isPrefixOfL p.data s.data

/-- Python `s.endswith(p)`. -/
def pyEndsWith (s p : String) : Bool := isPrefixOfL p.data.reverse s.data.reverse

/-- Python `sub in s` (substring containment). -/
def pyContains (s sub : String) : Bool := containsSubL sub.data s.data

/-- Python `s[n:]` (drop the first `n` characters). -/
def pyDrop (s : String) (n : Nat) : String := ⟨s.data.drop n⟩

/-- Python `s[:-n]` (drop the last `n` characters). -/
def pyDropRight (s : String) (n : Nat) : String := ⟨s.data.take (s.data.length - n)⟩

/-- Python `s.strip()`: remove leading and trailing whitespace. -/
def pyStrip (s : String) : String :=
  ⟨((s.data.dropWhile Char.isWhitespace).reverse.dropWhile Char.isWhitespace).reverse⟩

/-- Truthiness of Python `s.strip()` used in `if output.strip():`:
the stripped string is empty exactly when every character is whitespace. -/
def allWhitespace (s : String) : Bool := s.data.all Char.isWhitespace

/-! ## Values, the dataset and variable stores -/

/-- The bound dataset; its contents are irrelevant to the wrapper logic,
only its identity matters. -/
structure DataFrame where
  id : Nat
deriving DecidableEq

/-- Runtime values living in the execution scope.  `vnone` is Python's
`None`; `vfig` is a plotly figure object; `vobj` any other object;
`vdf` the bound dataframe; `vmodule` a pre-imported module. -/
inductive Value where
  | vnone
  | vint (n : Int)
  | vstr (s : String)
  | vfig (id : Nat)
  | vobj (id : Nat)
  | vdf (d : DataFrame)
  | vmodule (name : String)
deriving DecidableEq

/-- Python truthiness for the value forms of this model (used by the
`or` in `exec_locals.get('fig') or exec_locals.get('figure')`). -/
def truthy : Value → Bool
  | .vnone => false
  | .vint n => n != 0
  | .vstr s => !s.data.isEmpty
  | .vfig _ => true
  | .vobj _ => true
  | .vdf _ => true
  | .vmodule _ => true

/-- Python `a or b`: `a` if truthy, else `b`. -/
def pyOr (a b : Value) : Value := if truthy a then a else b

/-- A Python dict as the sandbox sees it: name to value. -/
def VarStore : Type := String → Option Value

/-- Empty dict. -/
def emptyStore : VarStore := fun _ => none

/-- `d[k] = v`. -/
def setVar (m : VarStore) (k : String) (v : Value) : VarStore :=
  fun q => if q = k then some v else m q

/-- The final `exec_locals` dict of one execution, as an association list
in dict iteration order (keys are unique in an actual Python dict). -/
def Locals : Type := List (String × Value)

/-- First-match lookup in an association list (dict access for
nodup-key lists). -/
def lookupVar : Locals → String → Option Value
  | [], _ => none
  | (k, v) :: rest, q => if q = k then some v else lookupVar rest q

/-- Python `k in d`. -/
def hasKey (l : Locals) (k : String) : Bool := (lookupVar l k).isSome

/-- Python `d.get(k)`: the value, or `None` when absent. -/
def pyGet (l : Locals) (k : String) : Value := (lookupVar l k).getD Value.vnone

/-! ## The sandbox: PythonREPLTool (src/src/agent.py lines 17-137) -/

/-- Names merged back into the persistent scope (agent.py lines 101-102):
everything except names starting with an underscore and the injected
helper `find_best_column_match`. -/
def keepName (k : String) : Bool :=
  !pyStartsWith k "_" && k != "find_best_column_match"

/-- Lines 100-103: merge the new locals of this execution into the
persistent variable store (dict iteration order). -/
def mergeVars (pv : VarStore) (locals : Locals) : VarStore :=
  locals.foldl (fun m kv => if keepName kv.1 then setVar m kv.1 kv.2 else m) pv

/-- Lines 69-82: the fixed globals pre-populated for every execution. -/
def baseGlobals (d : DataFrame) : VarStore := fun k =>
  if k = "df" then some (Value.vdf d)
  else if ["pd", "px", "go", "ff", "np", "tempfile", "Path", "os",
           "difflib", "time", "st"].contains k then some (Value.vmodule k)
  else none

/-- Lines 69-85: the environment visible to the executed code:
base globals updated with the persistent variables (persistent entries
shadow base names). -/
def execGlobals (d : DataFrame) (pv : VarStore) : VarStore :=
  fun k => match pv k with
  | some v => some v
  | none => baseGlobals d k

/-- Where `sys.stdout` currently points. -/
inductive StdoutTarget where
  | original
  | captured
deriving DecidableEq

/-- Process-level state outside the tool: the stdout target. -/
structure Sys where
  stdout : StdoutTarget
deriving DecidableEq

/-- The mutable state of a PythonREPLTool instance: the bound dataframe
(line 21), the visualization handle (line 22), and the lazily created
persistent variable dict (lines 61-62, semantically empty at creation). -/
structure REPLState where
  df : Option DataFrame
  current_figure : Option Value
  persistent_vars : VarStore

/-- Oracle for `exec(code, exec_globals, exec_locals)`: either the final
contents of `exec_locals` (including the injected helper) together with
the text printed to stdout, or an exception with its message. -/
inductive ExecResult where
  | ok (locals : Locals) (stdout : String)
  | exn (msg : String)

/-- Lines 31-38: strip whitespace and markdown code-fence markers. -/
def stripCode (code : String) : String :=
  let c := pyStrip code
  let c := if pyStartsWith c "```python" then pyDrop c 9 else c
  let c := if pyStartsWith c "```" then pyDrop c 3 else c
  let c := if pyEndsWith c "```" then pyDropRight c 3 else c
  pyStrip c

/-- Line 109 first conjunct: `'px.' in code or 'go.' in code or 'ff.' in code`. -/
def hasVizPattern (c : String) : Bool :=
  pyContains c "px." || pyContains c "go." || pyContains c "ff."

/-- Line 109: the guard of the visualization branch, on the stripped code. -/
def vizUsed (c : String) (locals : Locals) : Bool :=
  hasVizPattern c && (hasKey locals "fig" || hasKey locals "figure")

/-- Line 111: `exec_locals.get('fig') or exec_locals.get('figure')`. -/
def selectedFig (locals : Locals) : Value :=
  pyOr (pyGet locals "fig") (pyGet locals "figure")

/-- Lines 116-117 and 123-124: append captured stdout when its stripped
form is non-empty. -/
def appendOutput (r stdout : String) : String :=
  if allWhitespace stdout then r else r ++ "\n" ++ stdout

/-- Python repr of a value, for the `Results: {result_vars}` summary. -/
def reprValue : Value → String
  | .vnone => "None"
  | .vint n => toString n
  | .vstr s => "\x27" ++ s ++ "\x27"
  | .vfig id => "Figure(" ++ toString id ++ ")"
  | .vobj id => "<object " ++ toString id ++ ">"
  | .vdf d => "<DataFrame " ++ toString d.id ++ ">"
  | .vmodule name => "<module " ++ name ++ ">"

/-- Python repr of the `result_vars` dict (line 126). -/
def reprVars (l : Locals) : String :=
  "\x7b" ++ String.intercalate ", "
    (l.map (fun kv => "\x27" ++ kv.1 ++ "\x27: " ++ reprValue kv.2)) ++ "\x7d"

/-- Result of one `_run` call: the observation string returned to the
agent (`none` models the Python function falling off the end and
returning `None`), the tool state after the call, and the stdout target. -/
structure RunResult where
  observation : Option String
  state : REPLState
  sys : Sys

/-- PythonREPLTool._run (src/src/agent.py lines 25-133).
The code string and the exec oracle come in; the observation and the
updated tool state come out.  Path by path: the dataset guard
(lines 27-28), code stripping (lines 31-38), stdout redirection
(lines 90-91), the exception branch (lines 129-130), the scope merge
(lines 100-103), the visualization branch (lines 109-118, including the
fall-through that returns Python None when the selected object is None),
the plain-result branch (lines 120-127), and the finally-restoration of
stdout (lines 131-133). -/
def PythonREPLTool._run (code : String) (res : ExecResult) (st : REPLState)
    (sys : Sys) : RunResult :=
  match st.df with
  | none =>
    { observation := some "Error: No data available. Please upload a CSV file first.",
      state := st, sys := sys }
  | some _ =>
    let c := stripCode code
    let oldStdout := sys.stdout
    let finish : Option String × REPLState :=
      match res with
      | .exn msg => (some ("Error executing code: " ++ msg), st)
      | .ok locals stdout =>
        let stM : REPLState :=
          { st with persistent_vars := mergeVars st.persistent_vars locals }
        if vizUsed c locals then
          let fig := selectedFig locals
          if fig = Value.vnone then
            (none, stM)
          else
            (some (appendOutput
              "Code executed successfully. Interactive visualization created." stdout),
             { stM with current_figure := some fig })
        else
          let result_vars := locals.filter (fun kv => keepName kv.1)
          let r := appendOutput "Code executed successfully." stdout
          let r := if result_vars.isEmpty then r
                   else r ++ "\nResults: " ++ reprVars result_vars
          (some r, stM)
    { observation := finish.1, state := finish.2, sys := { stdout := oldStdout } }

/-- The figure captured by one execution, as a function of the inputs
alone (mirrors the visualization branch of `_run`). -/
def capturedFig (code : String) (res : ExecResult) : Option Value :=
  match res with
  | .exn _ => none
  | .ok locals _ =>
    if vizUsed (stripCode code) locals then
      if selectedFig locals = Value.vnone then none else some (selectedFig locals)
    else none

/-! ## The agent controller: DataScientistAgent (src/src/agent.py lines 139-325) -/

/-- The state of a DataScientistAgent: its dataframe (line 144) and its
PythonREPLTool (line 156).  The LLM handle and the prompt are external
collaborators with no bearing on the state transitions modelled here. -/
structure DataScientistAgent where
  df : Option DataFrame
  python_tool : REPLState

/-- DataScientistAgent.__init__ (lines 142-168): a fresh agent binds the
given dataframe to a fresh tool whose visualization handle is unset and
whose persistent scope is empty. -/
def DataScientistAgent.create (df : Option DataFrame) : DataScientistAgent :=
  { df := df,
    python_tool := { df := df, current_figure := none, persistent_vars := emptyStore } }

/-- DataScientistAgent.update_dataframe (lines 272-275): rebind the
dataframe on the agent and on its tool; nothing else is touched. -/
def DataScientistAgent.update_dataframe (a : DataScientistAgent) (d : DataFrame) :
    DataScientistAgent :=
  { a with df := some d, python_tool := { a.python_tool with df := some d } }

/-- One round of the external language model, as seen by the loop:
a well-formed tool action (with the exec oracle for the submitted code),
a malformed output (handled by the configured parsing-error recovery),
a well-formed final answer, or a failure of the external model call
itself (an exception raised inside the loop). -/
inductive ModelStep where
  | action (input : String) (res : ExecResult)
  | malformed (text : String)
  | finalAnswer (text : String)
  | externalError (msg : String)

/-- Termination of one `agent_executor.invoke` call: a final answer after
some number of rounds, step-budget exhaustion, or an exception raised by
the external model call after some number of rounds. -/
inductive InvokeResult where
  | finished (output : String) (rounds : Nat)
  | stopped (rounds : Nat)
  | raised (msg : String) (rounds : Nat)

/-- Rounds performed before the loop terminated. -/
def InvokeResult.roundsOf : InvokeResult → Nat
  | .finished _ n => n
  | .stopped n => n
  | .raised _ n => n

/-- True exactly for a `finished` outcome. -/
def InvokeResult.isFinished : InvokeResult → Bool
  | .finished _ _ => true
  | _ => false

/-- True exactly for a `raised` outcome. -/
def InvokeResult.isRaised : InvokeResult → Bool
  | .raised _ _ => true
  | _ => false

/-- A step that neither finishes the loop nor raises: a tool action or a
malformed output recovered by the parsing-error handler. -/
def ModelStep.nonTerminal : ModelStep → Bool
  | .action _ _ => true
  | .malformed _ => true
  | _ => false

/-- The figure a step captures in the tool, if any. -/
def ModelStep.captures : ModelStep → Option Value
  | .action code res => capturedFig code res
  | _ => none

/-- Result of one `agent_executor.invoke`: the outcome, the tool state
and the process stdout target after the loop. -/
structure LoopResult where
  outcome : InvokeResult
  tool : REPLState
  sys : Sys

/-- Modelled from the spec: the ReAct reasoning loop executed by
`agent_executor.invoke` is third-party library code (langchain
AgentExecutor) not present under src/; only its configuration is
(src/src/agent.py lines 161-168: the single python_repl tool,
`handle_parsing_errors` set to a corrective string, `max_iterations=15`).
Spec 4.2: each round parses the model output as an action directive or a
final-answer directive; an action invokes the sandbox and the observation
is appended to the scratchpad; malformed output injects the corrective
instruction and retries, counting against the budget; a final answer
terminates the loop; reaching the budget without a final answer
terminates with a could-not-complete outcome, not an exception; a failure
of the external model call is fatal for the query and surfaces as an
exception out of the loop.  `fuel` is the remaining budget, `n` the
rounds already performed. -/
def runLoop (script : Nat → ModelStep) : Nat → Nat → REPLState → Sys → LoopResult
  | 0, n, st, sys => { outcome := .stopped n, tool := st, sys := sys }
  | fuel + 1, n, st, sys =>
    match script n with
    | .finalAnswer out => { outcome := .finished out n, tool := st, sys := sys }
    | .externalError msg => { outcome := .raised msg n, tool := st, sys := sys }
    | .action code res =>
      let r := PythonREPLTool._run code res st sys
      runLoop script fuel (n + 1) r.state r.sys
    | .malformed _ => runLoop script fuel (n + 1) st sys

/-- The response envelope built by process_query (lines 289-300):
success flag, response text, error text (absent on success) and the
chart figure. -/
structure Envelope where
  success : Bool
  response : String
  error : Option String
  chart_figure : Option Value

/-- Result of one process_query call: the envelope, the tool state and
the stdout target afterwards. -/
structure QueryResult where
  envelope : Envelope
  tool : REPLState
  sys : Sys

/-- Response text of the step-budget terminal outcome.  Modelled from the
spec: reaching the budget without a final answer terminates with a
"could not complete" outcome reported as a failure envelope with an
explanatory message (spec 4.2 and 7). -/
def stoppedResponse : String :=
  "Agent stopped: could not complete the query within the step budget."

/-- DataScientistAgent.process_query (src/src/agent.py lines 277-300).
On a normal return of `invoke`, the visualization handle is read into the
envelope and cleared (lines 282-293).  On an exception escaping `invoke`,
the except branch (lines 294-300) builds a failure envelope with the
exception message and a null chart, and does NOT clear the handle.
The projection of the budget-exhaustion outcome is modelled from the
spec (failure envelope with a could-not-complete message, spec 7), while
its handle read-and-clear follows the source's normal-return path. -/
def DataScientistAgent.process_query (budget : Nat) (script : Nat → ModelStep)
    (st : REPLState) (sys : Sys) : QueryResult :=
  match runLoop script budget 0 st sys with
  | { outcome := .finished out _, tool := st1, sys := sys1 } =>
    { envelope :=
        { success := true, response := out, error := none,
          chart_figure := st1.current_figure },
      tool := { st1 with current_figure := none }, sys := sys1 }
  | { outcome := .stopped _, tool := st1, sys := sys1 } =>
    { envelope :=
        { success := false, response := stoppedResponse,
          error := some "could not complete", chart_figure := st1.current_figure },
      tool := { st1 with current_figure := none }, sys := sys1 }
  | { outcome := .raised msg _, tool := st1, sys := sys1 } =>
    { envelope :=
        { success := false, response := "I encountered an error: " ++ msg,
          error := some msg, chart_figure := none },
      tool := st1, sys := sys1 }

/-! ## The global agent and the API path -/

/-- get_agent (src/src/agent.py lines 330-337): create the global
instance on first use, rebind the dataframe when one is supplied on a
later use, and otherwise return the instance untouched.  Returns the
agent handed to the caller and the new global. -/
def get_agent (g : Option DataScientistAgent) (df : Option DataFrame) :
    DataScientistAgent × Option DataScientistAgent :=
  match g with
  | none =>
    let a := DataScientistAgent.create df
    (a, some a)
  | some a =>
    match df with
    | some d =>
      let a2 := DataScientistAgent.update_dataframe a d
      (a2, some a2)
    | none => (a, some a)

/-- Process-wide state of the backend: the global agent singleton
(src/src/agent.py line 328) and the stdout target. -/
structure World where
  agent_instance : Option DataScientistAgent
  sys : Sys

/-- process_agent_query (src/api.py lines 188-220), reduced to the part
that touches agent state: fetch the global agent rebound to the session's
dataframe (line 203) and run process_query on it (line 204); the mutated
tool state lives on in the global instance. -/
def process_agent_query (w : World) (df : DataFrame) (budget : Nat)
    (script : Nat → ModelStep) : Envelope × World :=
  let ag := get_agent w.agent_instance (some df)
  let q := DataScientistAgent.process_query budget script ag.1.python_tool w.sys
  (q.envelope,
   { agent_instance := some { ag.1 with python_tool := q.tool }, sys := q.sys })

/-! ## Concrete fixtures for witnesses and counterexamples -/

/-- A session-A dataframe. -/
def dfA : DataFrame := ⟨0⟩

/-- A session-B dataframe, distinct from `dfA`. -/
def dfB : DataFrame := ⟨1⟩

/-- A tool state with `dfA` bound, no figure, empty scope. -/
def stBound : REPLState :=
  { df := some dfA, current_figure := none, persistent_vars := emptyStore }

/-- A tool state with a figure pending and one persistent variable. -/
def stBusy : REPLState :=
  { df := some dfA, current_figure := some (Value.vfig 3),
    persistent_vars := setVar emptyStore "y" (Value.vint 2) }

/-- A tool state with no dataframe bound. -/
def stUnbound : REPLState :=
  { df := none, current_figure := none, persistent_vars := emptyStore }

/-- Stdout at its original target. -/
def sysOrig : Sys := { stdout := .original }

/-- A model script that creates `x = 1` in round 0 and then answers. -/
def createX : Nat → ModelStep := fun i =>
  if i = 0 then .action "x = 1" (.ok [("x", Value.vint 1)] "") else .finalAnswer "done"

/-- A model script whose round-0 code raises and which then answers. -/
def exnThenFinal : Nat → ModelStep := fun i =>
  if i = 0 then .action "result = 1/0" (.exn "division by zero")
  else .finalAnswer "done"

/-- A model script that produces a chart in round 0 after which the
external model call fails. -/
def chartThenCrash : Nat → ModelStep := fun i =>
  if i = 0 then .action "fig = px.bar(df)" (.ok [("fig", Value.vfig 7)] "")
  else .externalError "API timeout"

/-- A model script that immediately answers, creating nothing. -/
def plainFinal : Nat → ModelStep := fun _ => .finalAnswer "hello"

/-- A model script that never parses: every round is malformed. -/
def allMalformed : Nat → ModelStep := fun _ => .malformed "no action here"

/-! ## Helper lemmas -/

theorem strData_append (s t : String) : (s ++ t).data = s.data ++ t.data := by
  cases s; cases t; rfl

theorem strExt {s t : String} (h : s.data = t.data) : s = t := by
  cases s; cases t; exact congrArg String.mk h

theorem strAppend_empty (s : String) : s ++ "" = s := by
  apply strExt; rw [strData_append]; exact List.append_nil _

theorem strAppend_assoc (a b c : String) : a ++ b ++ c = a ++ (b ++ c) := by
  apply strExt
  rw [strData_append, strData_append, strData_append, strData_append]
  exact List.append_assoc _ _ _

/-- The visualization success message extends the plain success message by
a space-led suffix. -/
theorem vizMsg_data :
    ("Code executed successfully. Interactive visualization created." : String).data
      = ("Code executed successfully." : String).data
        ++ (" Interactive visualization created." : String).data := by decide

theorem vizSep_data :
    (" Interactive visualization created." : String).data
      = ' ' :: ("Interactive visualization created." : String).data := by decide

/-- A plain-branch observation (the fixed success message followed by
nothing or by a newline-led suffix) is never a visualization-branch
observation (the longer fixed message followed by anything). -/
theorem okBase_append_ne_viz (t u : String)
    (ht : t.data = [] ∨ ∃ z, t.data = '\n' :: z) :
    ("Code executed successfully." : String) ++ t
      ≠ ("Code executed successfully. Interactive visualization created." : String) ++ u := by
  intro h
  have hd := congrArg String.data h
  rw [strData_append, strData_append, vizMsg_data, List.append_assoc] at hd
  have h2 := List.append_cancel_left hd
  rw [vizSep_data] at h2
  rcases ht with ht | ⟨z, ht⟩
  · rw [ht] at h2
    exact List.noConfusion h2
  · rw [ht] at h2
    have hh := (List.cons.inj h2).1
    exact absurd hh (by decide)

theorem nl_append_data (s : String) : ("\n" ++ s).data = '\n' :: s.data := by
  rw [strData_append]
  have h : ("\n" : String).data = [ '\n' ] := by decide
  rw [h]
  rfl

theorem nlResults_append_data (s : String) :
    ("\nResults: " ++ s).data = '\n' :: ("Results: " ++ s).data := by
  rw [strData_append, strData_append]
  have h : ("\nResults: " : String).data = '\n' :: ("Results: " : String).data := by decide
  rw [h]
  rfl

/-- One-step unfolding of the scope merge. -/
theorem mergeVars_cons (pv : VarStore) (kv : String × Value) (rest : Locals) :
    mergeVars pv (kv :: rest)
      = mergeVars (if keepName kv.1 then setVar pv kv.1 kv.2 else pv) rest := rfl

/-- The merge leaves names it never sees untouched. -/
theorem mergeVars_not_mem (locals : Locals) (k : String)
    (h : k ∉ locals.map Prod.fst) :
    ∀ pv : VarStore, mergeVars pv locals k = pv k := by
  induction locals with
  | nil => intro pv; rfl
  | cons kv rest ih =>
    intro pv
    have hne : k ≠ kv.1 := by
      intro he; exact h (by rw [List.map_cons, he]; exact List.mem_cons_self _ _)
    have htl : k ∉ rest.map Prod.fst := by
      intro hm; exact h (by rw [List.map_cons]; exact List.mem_cons_of_mem _ hm)
    rw [mergeVars_cons, ih htl]
    by_cases hk : keepName kv.1 = true
    · simp only [hk, if_true, setVar, if_neg hne]
    · simp only [Bool.not_eq_true] at hk
      simp only [hk, Bool.false_eq_true, if_false]

/-- A kept name bound in the (nodup-key) locals ends up in the merged
store with its locals value. -/
theorem mergeVars_lookup (locals : Locals) (k : String) (v : Value)
    (hnd : (locals.map Prod.fst).Nodup) (hl : lookupVar locals k = some v)
    (hk : keepName k = true) :
    ∀ pv : VarStore, mergeVars pv locals k = some v := by
  induction locals with
  | nil => exact absurd hl (by simp [lookupVar])
  | cons kv rest ih =>
    intro pv
    rw [List.map_cons, List.nodup_cons] at hnd
    by_cases he : k = kv.1
    · have hv : v = kv.2 := by
        rw [lookupVar, if_pos he] at hl
        exact (Option.some.inj hl).symm
      have hnm : k ∉ rest.map Prod.fst := he ▸ hnd.1
      rw [mergeVars_cons, mergeVars_not_mem rest k hnm]
      rw [he] at hk ⊢
      rw [if_pos hk, setVar, if_pos rfl, hv]
    · have hl2 : lookupVar rest k = some v := by
        rw [lookupVar, if_neg he] at hl; exact hl
      rw [mergeVars_cons]
      exact ih hnd.2 hl2 _

/-- On a completing execution the persistent scope of the resulting tool
state is exactly the merge of the previous scope with the new locals,
whichever output branch is taken. -/
theorem run_ok_persistent (code : String) (locals : Locals) (stdout : String)
    (st : REPLState) (sys : Sys) (d : DataFrame) (hdf : st.df = some d) :
    (PythonREPLTool._run code (.ok locals stdout) st sys).state.persistent_vars
      = mergeVars st.persistent_vars locals := by
  simp only [PythonREPLTool._run, hdf]
  by_cases hviz : vizUsed (stripCode code) locals = true
  · rw [if_pos hviz]
    by_cases hsel : selectedFig locals = Value.vnone
    · rw [if_pos hsel]
    · rw [if_neg hsel]
  · rw [if_neg hviz]

/-- An execution that captures no figure leaves the visualization handle
unchanged. -/
theorem run_figure_preserved (code : String) (res : ExecResult) (st : REPLState)
    (sys : Sys) (h : capturedFig code res = none) :
    (PythonREPLTool._run code res st sys).state.current_figure
      = st.current_figure := by
  cases hdf : st.df with
  | none => simp only [PythonREPLTool._run, hdf]
  | some d =>
    cases res with
    | exn msg => simp only [PythonREPLTool._run, hdf]
    | ok locals stdout =>
      simp only [PythonREPLTool._run, hdf]
      by_cases hviz : vizUsed (stripCode code) locals = true
      · have hsel : selectedFig locals = Value.vnone := by
          by_contra hne
          simp only [capturedFig] at h
          rw [if_pos hviz, if_neg hne] at h
          exact Option.noConfusion h
        rw [if_pos hviz, if_pos hsel]
      · rw [if_neg hviz]

/-- If no step of the script captures a figure, the loop preserves an
unset visualization handle. -/
theorem runLoop_figure_none (script : Nat → ModelStep)
    (h : ∀ i, (script i).captures = none) :
    ∀ (fuel n : Nat) (st : REPLState) (sys : Sys), st.current_figure = none →
      (runLoop script fuel n st sys).tool.current_figure = none := by
  intro fuel
  induction fuel with
  | zero => intro n st sys hst; exact hst
  | succ k ih =>
    intro n st sys hst
    cases hs : script n with
    | finalAnswer out => simp only [runLoop, hs]; exact hst
    | externalError msg => simp only [runLoop, hs]; exact hst
    | malformed t => simp only [runLoop, hs]; exact ih (n + 1) st sys hst
    | action code res =>
      simp only [runLoop, hs]
      apply ih
      have hc : capturedFig code res = none := by
        have := h n; rw [hs] at this; exact this
      rw [run_figure_preserved code res st sys hc]
      exact hst

/-- The loop performs at most `fuel` further rounds. -/
theorem runLoop_rounds_le (script : Nat → ModelStep) :
    ∀ (fuel n : Nat) (st : REPLState) (sys : Sys),
      (runLoop script fuel n st sys).outcome.roundsOf ≤ n + fuel := by
  intro fuel
  induction fuel with
  | zero => intro n st sys; exact Nat.le_refl _
  | succ k ih =>
    intro n st sys
    cases hs : script n with
    | finalAnswer out =>
      simp only [runLoop, hs, InvokeResult.roundsOf]
      exact Nat.le_add_right n (k + 1)
    | externalError msg =>
      simp only [runLoop, hs, InvokeResult.roundsOf]
      exact Nat.le_add_right n (k + 1)
    | malformed t =>
      simp only [runLoop, hs]
      calc (runLoop script k (n + 1) st sys).outcome.roundsOf
          ≤ n + 1 + k := ih (n + 1) st sys
        _ = n + (k + 1) := by omega
    | action code res =>
      simp only [runLoop, hs]
      calc (runLoop script k (n + 1) _ _).outcome.roundsOf
          ≤ n + 1 + k := ih (n + 1) _ _
        _ = n + (k + 1) := by omega

/-- A script that never emits a final answer and never raises drives the
loop to budget exhaustion after exactly the budgeted number of rounds. -/
theorem runLoop_nonTerminal_stopped (script : Nat → ModelStep)
    (h : ∀ i, (script i).nonTerminal = true) :
    ∀ (fuel n : Nat) (st : REPLState) (sys : Sys),
      (runLoop script fuel n st sys).outcome = .stopped (n + fuel) := by
  intro fuel
  induction fuel with
  | zero => intro n st sys; rfl
  | succ k ih =>
    intro n st sys
    cases hs : script n with
    | finalAnswer out =>
      have hn := h n
      rw [hs] at hn
      simp [ModelStep.nonTerminal] at hn
    | externalError msg =>
      have hn := h n
      rw [hs] at hn
      simp [ModelStep.nonTerminal] at hn
    | malformed t =>
      simp only [runLoop, hs]
      rw [ih (n + 1) st sys]
      congr 1
      omega
    | action code res =>
      simp only [runLoop, hs]
      rw [ih (n + 1) _ _]
      congr 1
      omega

/-- The envelope's success flag is exactly "the loop finished with a
well-formed final answer". -/
theorem process_query_success_iff (budget : Nat) (script : Nat → ModelStep)
    (st : REPLState) (sys : Sys) :
    (DataScientistAgent.process_query budget script st sys).envelope.success
      = (runLoop script budget 0 st sys).outcome.isFinished := by
  rcases hr : runLoop script budget 0 st sys with ⟨out, st1, sys1⟩
  cases out with
  | finished o n => simp [DataScientistAgent.process_query, hr, InvokeResult.isFinished]
  | stopped n => simp [DataScientistAgent.process_query, hr, InvokeResult.isFinished]
  | raised m n => simp [DataScientistAgent.process_query, hr, InvokeResult.isFinished]

/-- On an exception from the executed code, the sandbox returns exactly
the conversion of the exception message, the unchanged tool state, and
the restored stdout target. -/
theorem run_exn (code msg : String) (st : REPLState) (sys : Sys) (d : DataFrame)
    (hdf : st.df = some d) :
    PythonREPLTool._run code (.exn msg) st sys
      = { observation := some ("Error executing code: " ++ msg), state := st,
          sys := { stdout := sys.stdout } } := by
  simp only [PythonREPLTool._run, hdf]

/-! ## The claims -/

/-- C7: with no dataset bound, the sandbox returns the fixed binding-error
observation immediately: the result does not depend on the submitted code
or on its execution, and the tool state (persistent scope, visualization
handle, binding) and the stdout target are returned unchanged. -/
theorem c7_no_dataset_immediate_error (code : String) (res : ExecResult)
    (st : REPLState) (sys : Sys) (h : st.df = none) :
    PythonREPLTool._run code res st sys
      = { observation := some "Error: No data available. Please upload a CSV file first.",
          state := st, sys := sys } := by
  simp only [PythonREPLTool._run, h]

/-- C7 witness: the binding-error path at a concrete input. -/
theorem c7_no_dataset_immediate_error_witness :
    PythonREPLTool._run "x = 1" (.ok [("x", Value.vint 1)] "") stUnbound sysOrig
      = { observation := some "Error: No data available. Please upload a CSV file first.",
          state := stUnbound, sys := sysOrig } :=
  c7_no_dataset_immediate_error "x = 1" (.ok [("x", Value.vint 1)] "") stUnbound sysOrig rfl

/-- C9: rebinding a dataset via update_dataframe replaces the dataframe of
the agent and of its sandbox tool, leaves every persistent variable with
its previous value, and get_agent with a non-null dataframe on an existing
instance is exactly that rebinding. -/
theorem c9_rebind_preserves_scope (a : DataScientistAgent) (d : DataFrame) :
    (DataScientistAgent.update_dataframe a d).df = some d
    ∧ (DataScientistAgent.update_dataframe a d).python_tool.df = some d
    ∧ (∀ k, (DataScientistAgent.update_dataframe a d).python_tool.persistent_vars k
        = a.python_tool.persistent_vars k)
    ∧ get_agent (some a) (some d)
        = (DataScientistAgent.update_dataframe a d,
           some (DataScientistAgent.update_dataframe a d)) :=
  ⟨rfl, rfl, fun _ => rfl, rfl⟩

/-- C10: an exception raised by the submitted code is atomic for the
sandbox state: the tool state (persistent scope and visualization handle)
is returned exactly as it was, and, with a dataset bound, only the error
observation carrying the exception message is returned. -/
theorem c10_exception_atomic (code msg : String) (st : REPLState) (sys : Sys) :
    (PythonREPLTool._run code (.exn msg) st sys).state = st
    ∧ (st.df.isSome = true →
        (PythonREPLTool._run code (.exn msg) st sys).observation
          = some ("Error executing code: " ++ msg)) := by
  constructor
  · cases h : st.df with
    | none => simp only [PythonREPLTool._run, h]
    | some d => rw [run_exn code msg st sys d h]
  · intro hdf
    obtain ⟨d, h⟩ := Option.isSome_iff_exists.mp hdf
    rw [run_exn code msg st sys d h]

/-- C10 witness: a raising execution on a busy state changes nothing. -/
theorem c10_exception_atomic_witness :
    (PythonREPLTool._run "boom()" (.exn "name error") stBusy sysOrig).state = stBusy
    ∧ (PythonREPLTool._run "boom()" (.exn "name error") stBusy sysOrig).observation
        = some ("Error executing code: " ++ "name error") :=
  ⟨(c10_exception_atomic "boom()" "name error" stBusy sysOrig).1,
   (c10_exception_atomic "boom()" "name error" stBusy sysOrig).2 rfl⟩

/-- C6: the sandbox never propagates an exception of the executed code:
with a dataset bound it converts any such exception into the failure
observation carrying the exception message; and the redirected stdout
stream is restored to its incoming target on every path, success,
failure and binding error alike. -/
theorem c6_exception_converted_stdout_restored (code : String) (res : ExecResult)
    (st : REPLState) (sys : Sys) :
    (PythonREPLTool._run code res st sys).sys.stdout = sys.stdout
    ∧ (∀ msg, res = .exn msg → st.df.isSome = true →
        (PythonREPLTool._run code res st sys).observation
          = some ("Error executing code: " ++ msg)) := by
  constructor
  · cases h : st.df with
    | none => simp only [PythonREPLTool._run, h]
    | some d => simp only [PythonREPLTool._run, h]
  · intro msg hres hdf
    obtain ⟨d, h⟩ := Option.isSome_iff_exists.mp hdf
    rw [hres, run_exn code msg st sys d h]

/-- C6 witness: an exception path at a concrete input, with stdout
restored and the message preserved. -/
theorem c6_exception_converted_stdout_restored_witness :
    (PythonREPLTool._run "1/0" (.exn "division by zero") stBound sysOrig).sys.stdout
      = sysOrig.stdout
    ∧ (PythonREPLTool._run "1/0" (.exn "division by zero") stBound sysOrig).observation
        = some ("Error executing code: " ++ "division by zero") :=
  ⟨(c6_exception_converted_stdout_restored "1/0" (.exn "division by zero") stBound sysOrig).1,
   (c6_exception_converted_stdout_restored "1/0" (.exn "division by zero") stBound sysOrig).2
     "division by zero" rfl rfl⟩

/-- C2: every top-level name created by a completing round, other than
underscore-prefixed names and the injected helper name, is present with
its round value in the persistent scope afterwards, and hence in the
global environment handed to the next round's execution (whatever
dataframe is then bound). -/
theorem c2_scope_persists_to_next_round (code : String) (locals : Locals)
    (stdout : String) (st : REPLState) (sys : Sys) (d : DataFrame)
    (k : String) (v : Value)
    (hdf : st.df = some d)
    (hnd : (locals.map Prod.fst).Nodup)
    (hl : lookupVar locals k = some v)
    (hk : keepName k = true) :
    (PythonREPLTool._run code (.ok locals stdout) st sys).state.persistent_vars k
      = some v
    ∧ ∀ d2 : DataFrame,
        execGlobals d2
          (PythonREPLTool._run code (.ok locals stdout) st sys).state.persistent_vars k
          = some v := by
  have hp := run_ok_persistent code locals stdout st sys d hdf
  have hm := mergeVars_lookup locals k v hnd hl hk st.persistent_vars
  refine ⟨by rw [hp]; exact hm, fun d2 => ?_⟩
  unfold execGlobals
  rw [hp, hm]

/-- C2 witness: a created variable is found in the scope and in the next
round's globals, even after a dataset swap. -/
theorem c2_scope_persists_to_next_round_witness :
    (PythonREPLTool._run "x = 1" (.ok [("x", Value.vint 3)] "") stBound sysOrig).state.persistent_vars "x"
      = some (Value.vint 3)
    ∧ execGlobals dfB
        (PythonREPLTool._run "x = 1" (.ok [("x", Value.vint 3)] "") stBound sysOrig).state.persistent_vars "x"
      = some (Value.vint 3) :=
  ⟨(c2_scope_persists_to_next_round "x = 1" [("x", Value.vint 3)] "" stBound sysOrig dfA
      "x" (Value.vint 3) rfl (by decide) (by decide) (by decide)).1,
   (c2_scope_persists_to_next_round "x = 1" [("x", Value.vint 3)] "" stBound sysOrig dfA
      "x" (Value.vint 3) rfl (by decide) (by decide) (by decide)).2 dfB⟩

/-- C8: the reasoning loop performs at most 15 rounds (the configured
max_iterations), and a script that never emits a well-formed final answer
(every round is a tool action or a malformed output) terminates exactly
at that budget with the could-not-complete outcome and its failure
envelope, raising nothing. -/
theorem c8_step_budget (script : Nat → ModelStep) (st : REPLState) (sys : Sys) :
    (runLoop script 15 0 st sys).outcome.roundsOf ≤ 15
    ∧ ((∀ i, (script i).nonTerminal = true) →
        (runLoop script 15 0 st sys).outcome = .stopped 15
        ∧ (DataScientistAgent.process_query 15 script st sys).envelope.success = false
        ∧ (DataScientistAgent.process_query 15 script st sys).envelope.response
            = stoppedResponse) := by
  constructor
  · simpa using runLoop_rounds_le script 15 0 st sys
  · intro h
    have hst := runLoop_nonTerminal_stopped script h 15 0 st sys
    rw [Nat.zero_add] at hst
    refine ⟨hst, ?_, ?_⟩
    · rcases hr : runLoop script 15 0 st sys with ⟨out, st1, sys1⟩
      rw [hr] at hst
      simp only at hst
      subst hst
      simp [DataScientistAgent.process_query, hr]
    · rcases hr : runLoop script 15 0 st sys with ⟨out, st1, sys1⟩
      rw [hr] at hst
      simp only at hst
      subst hst
      simp [DataScientistAgent.process_query, hr]

/-- C8 witness: a permanently malformed script exhausts the budget. -/
theorem c8_step_budget_witness :
    (runLoop allMalformed 15 0 stBound sysOrig).outcome.roundsOf ≤ 15
    ∧ ((runLoop allMalformed 15 0 stBound sysOrig).outcome = .stopped 15
        ∧ (DataScientistAgent.process_query 15 allMalformed stBound sysOrig).envelope.success
            = false
        ∧ (DataScientistAgent.process_query 15 allMalformed stBound sysOrig).envelope.response
            = stoppedResponse) :=
  ⟨(c8_step_budget allMalformed stBound sysOrig).1,
   (c8_step_budget allMalformed stBound sysOrig).2 (fun _ => rfl)⟩

/-- C4 counterexample: session A (fresh process, dataframe dfA) runs a
round creating `x = 1`; session B then arrives with its own dataframe
dfB and no prior rounds, yet the agent get_agent hands it still holds
session A's `x`, and B's first-round execution environment exposes it.
The claim's isolation statement is false on the code. -/
theorem c4_counterexample_singleton_leaks_across_sessions :
    (get_agent
        (process_agent_query { agent_instance := none, sys := sysOrig } dfA 15 createX).2.agent_instance
        (some dfB)).1.python_tool.persistent_vars "x" = some (Value.vint 1)
    ∧ execGlobals dfB
        (get_agent
          (process_agent_query { agent_instance := none, sys := sysOrig } dfA 15 createX).2.agent_instance
          (some dfB)).1.python_tool.persistent_vars "x" = some (Value.vint 1) := by
  constructor
  · decide
  · decide

/-- C4 (amended): a freshly constructed agent starts with an empty
persistent scope and no pending figure, so isolation holds exactly
between distinct agent instances; but get_agent keeps one process-wide
instance whose persistent scope survives the dataframe rebinding
performed for a new session, so sessions served by the same process
share state. -/
theorem c4_amended_isolation_per_instance_not_per_session
    (df : Option DataFrame) (a : DataScientistAgent) (d : DataFrame) :
    (DataScientistAgent.create df).python_tool.persistent_vars = emptyStore
    ∧ (DataScientistAgent.create df).python_tool.current_figure = none
    ∧ (get_agent (some a) (some d)).1.python_tool.persistent_vars
        = a.python_tool.persistent_vars
    ∧ (get_agent none df).1 = DataScientistAgent.create df :=
  ⟨rfl, rfl, rfl, rfl⟩

/-- C3 counterexample: the sandboxed code of round 0 raises, the model
recovers and answers in round 1; the returned envelope has success=true
and no error field, contrary to the claim's required success=false with
the exception message. -/
theorem c3_counterexample_sandbox_exception_not_failure :
    (DataScientistAgent.process_query 15 exnThenFinal stBound sysOrig).envelope.success = true
    ∧ (DataScientistAgent.process_query 15 exnThenFinal stBound sysOrig).envelope.error
        = none := by
  constructor
  · decide
  · decide

/-- C3 (amended): a sandboxed exception never escapes process_query — the
sandbox converts it into the observation string carrying the exception
message with the tool state unchanged, and the envelope's success flag is
determined solely by whether the loop finished with a final answer, not
by whether some round's code raised. -/
theorem c3_amended_exception_contained (budget : Nat) (script : Nat → ModelStep)
    (st : REPLState) (sys : Sys) :
    (DataScientistAgent.process_query budget script st sys).envelope.success
      = (runLoop script budget 0 st sys).outcome.isFinished
    ∧ (∀ code msg, st.df.isSome = true →
        (PythonREPLTool._run code (.exn msg) st sys).observation
          = some ("Error executing code: " ++ msg)
        ∧ (PythonREPLTool._run code (.exn msg) st sys).state = st) := by
  refine ⟨process_query_success_iff budget script st sys, ?_⟩
  intro code msg hdf
  obtain ⟨d, h⟩ := Option.isSome_iff_exists.mp hdf
  rw [run_exn code msg st sys d h]
  exact ⟨rfl, rfl⟩

/-- C3 (amended) witness at concrete inputs. -/
theorem c3_amended_exception_contained_witness :
    (DataScientistAgent.process_query 15 exnThenFinal stBound sysOrig).envelope.success
      = (runLoop exnThenFinal 15 0 stBound sysOrig).outcome.isFinished
    ∧ ((PythonREPLTool._run "result = 1/0" (.exn "division by zero") stBound sysOrig).observation
        = some ("Error executing code: " ++ "division by zero")
        ∧ (PythonREPLTool._run "result = 1/0" (.exn "division by zero") stBound sysOrig).state
            = stBound) :=
  ⟨(c3_amended_exception_contained 15 exnThenFinal stBound sysOrig).1,
   (c3_amended_exception_contained 15 exnThenFinal stBound sysOrig).2
     "result = 1/0" "division by zero" rfl⟩

/-- C5 counterexample: round 0 of query one captures a chart, after which
the external model call raises; the except path of process_query returns
an envelope with no chart and leaves the handle set.  A second,
non-chart-producing query then returns the stale chart of query one.
Both the "populated exactly once" and the "stale chart never appears"
parts of the claim are false on the code. -/
theorem c5_counterexample_stale_chart_leaks :
    (DataScientistAgent.process_query 15 chartThenCrash stBound sysOrig).envelope.chart_figure
      = none
    ∧ (DataScientistAgent.process_query 15 plainFinal
        (DataScientistAgent.process_query 15 chartThenCrash stBound sysOrig).tool
        (DataScientistAgent.process_query 15 chartThenCrash stBound sysOrig).sys).envelope.chart_figure
      = some (Value.vfig 7) := by
  constructor
  · decide
  · decide

/-- C5 (amended): when the first query's loop returns without raising,
its envelope carries exactly the visualization handle as of loop end, the
handle is cleared by that read, and a subsequent query none of whose
rounds captures a figure returns an envelope with no chart.  (When the
loop raises after a capture, the source neither returns nor clears the
handle, which is the corner the counterexample exhibits.) -/
theorem c5_amended_handle_consumed_once (s1 s2 : Nat → ModelStep)
    (st : REPLState) (sys : Sys)
    (h1 : (runLoop s1 15 0 st sys).outcome.isRaised = false)
    (h2 : ∀ i, (s2 i).captures = none) :
    (DataScientistAgent.process_query 15 s1 st sys).envelope.chart_figure
        = (runLoop s1 15 0 st sys).tool.current_figure
    ∧ (DataScientistAgent.process_query 15 s1 st sys).tool.current_figure = none
    ∧ (DataScientistAgent.process_query 15 s2
        (DataScientistAgent.process_query 15 s1 st sys).tool
        (DataScientistAgent.process_query 15 s1 st sys).sys).envelope.chart_figure
      = none := by
  rcases hr : runLoop s1 15 0 st sys with ⟨out, st1, sys1⟩
  rw [hr] at h1
  have hq : DataScientistAgent.process_query 15 s1 st sys
      = { envelope :=
            { success := (DataScientistAgent.process_query 15 s1 st sys).envelope.success,
              response := (DataScientistAgent.process_query 15 s1 st sys).envelope.response,
              error := (DataScientistAgent.process_query 15 s1 st sys).envelope.error,
              chart_figure := st1.current_figure },
          tool := { st1 with current_figure := none },
          sys := sys1 } := by
    cases out with
    | finished o n => simp [DataScientistAgent.process_query, hr]
    | stopped n => simp [DataScientistAgent.process_query, hr]
    | raised m n => simp [InvokeResult.isRaised] at h1
  refine ⟨?_, ?_, ?_⟩
  · rw [hq]
  · rw [hq]
  · rw [hq]
    have hclear : ({ st1 with current_figure := none } : REPLState).current_figure
        = none := rfl
    have hfig := runLoop_figure_none s2 h2 15 0
      ({ st1 with current_figure := none }) sys1 hclear
    rcases hr2 : runLoop s2 15 0 ({ st1 with current_figure := none }) sys1
      with ⟨out2, st2, sys2⟩
    rw [hr2] at hfig
    cases out2 with
    | finished o n => simp [DataScientistAgent.process_query, hr2]; exact hfig
    | stopped n => simp [DataScientistAgent.process_query, hr2]; exact hfig
    | raised m n => simp [DataScientistAgent.process_query, hr2]

/-- C5 (amended) witness: chart query then plain query, no external
failure. -/
theorem c5_amended_handle_consumed_once_witness :
    (DataScientistAgent.process_query 15 createX stBound sysOrig).envelope.chart_figure
        = (runLoop createX 15 0 stBound sysOrig).tool.current_figure
    ∧ (DataScientistAgent.process_query 15 createX stBound sysOrig).tool.current_figure = none
    ∧ (DataScientistAgent.process_query 15 plainFinal
        (DataScientistAgent.process_query 15 createX stBound sysOrig).tool
        (DataScientistAgent.process_query 15 createX stBound sysOrig).sys).envelope.chart_figure
      = none :=
  c5_amended_handle_consumed_once createX plainFinal stBound sysOrig (by decide)
    (fun _ => rfl)

/-- C1 counterexample: with a dataset bound, code containing the plotting
pattern and a local `fig` bound to None completes, yet the sandbox
returns no observation at all (the Python function falls off the end and
returns None) — neither the visualization message nor the plain
"Code executed successfully." summary the claim requires for every other
completing execution. -/
theorem c1_counterexample_fig_none_returns_nothing :
    (PythonREPLTool._run "fig = px.line(df)" (.ok [("fig", Value.vnone)] "") stBound
        sysOrig).observation = none
    ∧ (PythonREPLTool._run "fig = px.line(df)" (.ok [("fig", Value.vnone)] "") stBound
        sysOrig).observation
      ≠ some ("Code executed successfully." ++ "\nResults: "
          ++ reprVars [("fig", Value.vnone)]) := by
  constructor
  · decide
  · decide

/-- C1 (amended): with a dataset bound, on a completing execution the
sandbox returns the fixed visualization observation (with captured stdout
appended when its stripped form is non-empty) if and only if the stripped
code contains one of the substrings px. go. ff. AND one of the names
fig or figure is among the locals AND the object selected by the
Python or-chain (the value of fig if truthy, else the value of figure)
is not None; in that case that object is stored as the visualization
handle.  When the pattern and membership hold but the selected object is
None, the sandbox returns no observation.  In every other completing
execution it returns the plain success message followed by stdout and,
when non-empty, the summary of kept locals. -/
theorem c1_amended_viz_detection (st : REPLState) (sys : Sys) (code : String)
    (locals : Locals) (stdout : String) (d : DataFrame) (hdf : st.df = some d) :
    ((PythonREPLTool._run code (.ok locals stdout) st sys).observation
        = some (appendOutput
            "Code executed successfully. Interactive visualization created." stdout)
      ↔ (vizUsed (stripCode code) locals = true ∧ selectedFig locals ≠ Value.vnone))
    ∧ (vizUsed (stripCode code) locals = true → selectedFig locals ≠ Value.vnone →
        (PythonREPLTool._run code (.ok locals stdout) st sys).state.current_figure
          = some (selectedFig locals))
    ∧ (vizUsed (stripCode code) locals = true → selectedFig locals = Value.vnone →
        (PythonREPLTool._run code (.ok locals stdout) st sys).observation = none)
    ∧ (vizUsed (stripCode code) locals = false →
        (PythonREPLTool._run code (.ok locals stdout) st sys).observation
          = some (if (locals.filter (fun kv => keepName kv.1)).isEmpty
              then appendOutput "Code executed successfully." stdout
              else appendOutput "Code executed successfully." stdout
                ++ "\nResults: " ++ reprVars (locals.filter (fun kv => keepName kv.1)))) := by
  by_cases hviz : vizUsed (stripCode code) locals = true
  · by_cases hsel : selectedFig locals = Value.vnone
    · have hobs : (PythonREPLTool._run code (.ok locals stdout) st sys).observation
          = none := by
        simp only [PythonREPLTool._run, hdf]
        rw [if_pos hviz, if_pos hsel]
      refine ⟨⟨fun h => ?_, fun h => absurd hsel h.2⟩,
        fun _ hne => absurd hsel hne, fun _ _ => hobs, fun hf => ?_⟩
      · rw [hobs] at h
        exact Option.noConfusion h
      · rw [hviz] at hf
        exact Bool.noConfusion hf
    · have hobs : (PythonREPLTool._run code (.ok locals stdout) st sys).observation
          = some (appendOutput
              "Code executed successfully. Interactive visualization created." stdout) := by
        simp only [PythonREPLTool._run, hdf]
        rw [if_pos hviz, if_neg hsel]
      have hfig : (PythonREPLTool._run code (.ok locals stdout) st sys).state.current_figure
          = some (selectedFig locals) := by
        simp only [PythonREPLTool._run, hdf]
        rw [if_pos hviz, if_neg hsel]
      refine ⟨⟨fun _ => ⟨hviz, hsel⟩, fun _ => hobs⟩,
        fun _ _ => hfig, fun _ hs => absurd hs hsel, fun hf => ?_⟩
      rw [hviz] at hf
      exact Bool.noConfusion hf
  · have hobs : (PythonREPLTool._run code (.ok locals stdout) st sys).observation
        = some (if (locals.filter (fun kv => keepName kv.1)).isEmpty
            then appendOutput "Code executed successfully." stdout
            else appendOutput "Code executed successfully." stdout
              ++ "\nResults: " ++ reprVars (locals.filter (fun kv => keepName kv.1))) := by
      simp only [PythonREPLTool._run, hdf]
      rw [if_neg hviz]
    refine ⟨⟨fun h => ?_, fun h => absurd h.1 hviz⟩,
      fun hv => absurd hv hviz, fun hv => absurd hv hviz, fun _ => hobs⟩
    rw [hobs] at h
    have he := Option.some.inj h
    by_cases hrv : (locals.filter (fun kv => keepName kv.1)).isEmpty = true
    · rw [if_pos hrv] at he
      simp only [appendOutput] at he
      by_cases ho : allWhitespace stdout = true
      · rw [if_pos ho, if_pos ho] at he
        exact absurd he (by decide)
      · rw [if_neg ho, if_neg ho] at he
        simp only [strAppend_assoc] at he
        exact absurd he
          (okBase_append_ne_viz ("\n" ++ stdout) ("\n" ++ stdout)
            (Or.inr ⟨stdout.data, nl_append_data stdout⟩))
    · rw [if_neg hrv] at he
      simp only [appendOutput] at he
      by_cases ho : allWhitespace stdout = true
      · rw [if_pos ho, if_pos ho] at he
        simp only [strAppend_assoc] at he
        have he2 : ("Code executed successfully." : String)
            ++ ("\nResults: " ++ reprVars (locals.filter (fun kv => keepName kv.1)))
            = ("Code executed successfully. Interactive visualization created." : String)
              ++ "" := by
          rw [strAppend_empty]
          exact he
        exact absurd he2
          (okBase_append_ne_viz _ ""
            (Or.inr ⟨_, nlResults_append_data _⟩))
      · rw [if_neg ho, if_neg ho] at he
        simp only [strAppend_assoc] at he
        exact absurd he
          (okBase_append_ne_viz _ _
            (Or.inr ⟨_, nl_append_data _⟩))

/-- C1 (amended) witness: a chart-producing execution at concrete inputs
returns the visualization observation and stores the figure. -/
theorem c1_amended_viz_detection_witness :
    (PythonREPLTool._run "fig = px.bar(df)" (.ok [("fig", Value.vfig 7)] "") stBound
        sysOrig).observation
      = some (appendOutput
          "Code executed successfully. Interactive visualization created." "")
    ∧ (PythonREPLTool._run "fig = px.bar(df)" (.ok [("fig", Value.vfig 7)] "") stBound
        sysOrig).state.current_figure
      = some (selectedFig [("fig", Value.vfig 7)]) :=
  ⟨((c1_amended_viz_detection stBound sysOrig "fig = px.bar(df)"
      [("fig", Value.vfig 7)] "" dfA rfl).1).mpr ⟨by decide, by decide⟩,
   (c1_amended_viz_detection stBound sysOrig "fig = px.bar(df)"
      [("fig", Value.vfig 7)] "" dfA rfl).2.1 (by decide) (by decide)⟩
